import Mathlib

set_option maxRecDepth 8000
set_option linter.unusedVariables false

/-!
Shallow embedding of `backend/app/services/pinecone_service.py`: a vector-memory
facade over a provider index handle.  Provider calls are modelled explicitly
(`IndexHandle` as a bundle of possibly-raising functions, `Call` as the trace of
attempted provider invocations), Python exceptions as `Except PyErr`, Python
`dict` metadata as association lists, and embedding vectors as `List ℚ`.
-/

namespace Pinecone

/-! ### SHA-1 (used by `hashlib.sha1(...).hexdigest()[:12]` in fact-id derivation) -/

/-- 32-bit left rotation on `Nat`, reduced mod `2 ^ 32`. -/
def rotl (n x : Nat) : Nat := ((x <<< n) ||| (x >>> (32 - n))) % 4294967296

/-- UTF-8 encoding of a single character (Python `str.encode("utf-8")`). -/
def utf8Bytes (c : Char) : List Nat :=
  let n := c.toNat
  if n < 128 then [n]
  else if n < 2048 then [192 + n / 64, 128 + n % 64]
  else if n < 65536 then [224 + n / 4096, 128 + (n / 64) % 64, 128 + n % 64]
  else [240 + n / 262144, 128 + (n / 4096) % 64, 128 + (n / 64) % 64, 128 + n % 64]

/-- UTF-8 bytes of a string. -/
def strBytes (s : String) : List Nat := (s.data.map utf8Bytes).flatten

/-- SHA-1 message padding: append `0x80`, zero bytes to 56 mod 64, then the
bit length as 8 big-endian bytes. -/
def sha1Pad (msg : List Nat) : List Nat :=
  let l := msg.length
  let k := (119 - l % 64) % 64
  let bitLen := 8 * l
  msg ++ [128] ++ List.replicate k 0 ++
    (List.range 8).map (fun i => (bitLen >>> (56 - 8 * i)) % 256)

/-- Group bytes into big-endian 32-bit words (fuel-indexed recursion). -/
def bytesToWordsAux : Nat → List Nat → List Nat
  | 0, _ => []
  | _ + 1, b0 :: b1 :: b2 :: b3 :: rest =>
      (b0 * 16777216 + b1 * 65536 + b2 * 256 + b3) :: bytesToWordsAux rest.length rest
  | _ + 1, _ => []

def bytesToWords (bs : List Nat) : List Nat := bytesToWordsAux bs.length bs

/-- Split a word list into 16-word blocks. -/
def toBlocksAux : Nat → List Nat → List (List Nat)
  | 0, _ => []
  | _ + 1, [] => []
  | fuel + 1, ws => ws.take 16 :: toBlocksAux fuel (ws.drop 16)

def toBlocks (ws : List Nat) : List (List Nat) := toBlocksAux ws.length ws

/-- Extend a 16-word block to the 80-word message schedule. -/
def sha1ExtendAux : Nat → List Nat → List Nat
  | 0, ws => ws
  | fuel + 1, ws =>
      let i := ws.length
      let w := rotl 1 ((ws.getD (i - 3) 0) ^^^ (ws.getD (i - 8) 0) ^^^
        (ws.getD (i - 14) 0) ^^^ (ws.getD (i - 16) 0))
      sha1ExtendAux fuel (ws ++ [w])

def sha1Extend (ws : List Nat) : List Nat := sha1ExtendAux 64 ws

/-- SHA-1 round function `f` per round index. -/
def sha1F (i b c d : Nat) : Nat :=
  if i < 20 then (b &&& c) ||| ((b ^^^ 4294967295) &&& d)
  else if i < 40 then b ^^^ c ^^^ d
  else if i < 60 then (b &&& c) ||| (b &&& d) ||| (c &&& d)
  else b ^^^ c ^^^ d

/-- SHA-1 round constant `k` per round index. -/
def sha1K (i : Nat) : Nat :=
  if i < 20 then 1518500249
  else if i < 40 then 1859775393
  else if i < 60 then 2400959708
  else 3395469782

/-- One SHA-1 compression round. -/
def sha1Round (st : Nat × Nat × Nat × Nat × Nat) (iw : Nat × Nat) :
    Nat × Nat × Nat × Nat × Nat :=
  let (a, b, c, d, e) := st
  let (i, w) := iw
  let temp := (rotl 5 a + sha1F i b c d + e + sha1K i + w) % 4294967296
  (temp, a, rotl 30 b, c, d)

/-- Process one 512-bit chunk. -/
def sha1Chunk (h : Nat × Nat × Nat × Nat × Nat) (chunk : List Nat) :
    Nat × Nat × Nat × Nat × Nat :=
  let ws := sha1Extend chunk
  let (a, b, c, d, e) := List.foldl sha1Round h ws.enum
  let (h0, h1, h2, h3, h4) := h
  ((h0 + a) % 4294967296, (h1 + b) % 4294967296, (h2 + c) % 4294967296,
   (h3 + d) % 4294967296, (h4 + e) % 4294967296)

/-- SHA-1 digest of a byte sequence, as five 32-bit words. -/
def sha1Words (msg : List Nat) : List Nat :=
  let blocks := toBlocks (bytesToWords (sha1Pad msg))
  let (h0, h1, h2, h3, h4) :=
    blocks.foldl sha1Chunk (1732584193, 4023233417, 2562383102, 271733878, 3285377520)
  [h0, h1, h2, h3, h4]

def hexChar (n : Nat) : Char := if n < 10 then Char.ofNat (48 + n) else Char.ofNat (87 + n)

def wordHex (w : Nat) : List Char :=
  (List.range 8).map (fun i => hexChar ((w >>> (28 - 4 * i)) % 16))

/-- `hashlib.sha1(s.encode("utf-8")).hexdigest()`. -/
def sha1Hex (s : String) : String :=
  String.mk ((sha1Words (strBytes s)).map wordHex).flatten

/-! ### Data model of the facade -/

/-- Embedding vectors (`create_embedding` output). -/
abbrev Vec := List ℚ

/-- A Python metadata `dict` of string scalars, as an insertion-ordered
association list. -/
abbrev Metadata := List (String × String)

/-- `dict.get(k)`: first binding of `k`, if any. -/
def mget (m : Metadata) (k : String) : Option String :=
  (m.find? (fun p => p.1 == k)).map (fun p => p.2)

/-- A vector record as passed to `index.upsert`: `(id, values, metadata)`. -/
abbrev VecRec := String × Vec × Metadata

/-- Python exceptions, as far as the service distinguishes them: `TypeError`
(signature incompatibility, with its own handler) versus anything else
(caught by `except Exception`). -/
inductive PyErr where
  | typeError
  | otherError
deriving DecidableEq, Repr

/-- Arguments of an `index.query(...)` call.  `ns` is the `namespace=` keyword
argument when passed; `filter` is the metadata equality filter
(`{key: {"$eq": value}}`). -/
structure QueryArgs where
  vector : Vec
  top_k : Nat
  include_metadata : Bool
  filter : List (String × String)
  ns : Option String
deriving DecidableEq, Repr

/-- One match of a query result: `score` and `metadata` attributes, each
possibly absent (`getattr(..., None)`). -/
structure MatchRec where
  score : Option ℚ
  metadata : Option Metadata
deriving DecidableEq, Repr

/-- Arguments of an `index.delete(...)` call. -/
structure DeleteArgs where
  ids : Option (List String)
  ns : Option String
  delete_all : Bool
deriving DecidableEq, Repr

/-- The bound provider index handle; each method may raise
(`Except.error`).  A query may return a result whose `matches` attribute is
missing (`none`). -/
structure IndexHandle where
  upsert : List VecRec → Option String → Except PyErr Unit
  query : QueryArgs → Except PyErr (Option (List MatchRec))
  delete : DeleteArgs → Except PyErr Unit

/-- Trace entry: one attempted provider call of a facade operation. -/
inductive Call where
  | upsertCall (vectors : List VecRec) (ns : Option String)
  | queryCall (args : QueryArgs)
  | deleteCall (args : DeleteArgs)
deriving DecidableEq

/-- Environment of a facade call. -/
structure Env where
  /-- Outcome of re-running `initialize_pinecone()` when the module-global
  `index` is `None`: the handle it binds, or `none` (missing credentials or
  any initialization failure, which the initializer absorbs). -/
  reinit : Option IndexHandle
  /-- `create_embedding` from the embedding service; `none` models a failure
  result. -/
  create_embedding : String → Option Vec

/-- `_ensure_index_ready()`: re-attempts initialization when the global
`index` is `None`; the operation proceeds iff the result is `some` handle. -/
def ensure_index_ready (env : Env) (st : Option IndexHandle) : Option IndexHandle :=
  match st with
  | some h => some h
  | none => env.reinit

/-- Python truthiness of an optional string (`if txt:`): `None` and `""` are
falsy. -/
def truthyStr (o : Option String) : Option String :=
  match o with
  | some s => if s = "" then none else some s
  | none => none

/-- Python truthiness of `create_embedding`'s result (`if not emb:` skips both
`None` and an empty list). -/
def embTruthy (e : Option Vec) : Option Vec :=
  match e with
  | some v => if v = [] then none else some v
  | none => none

/-! ### Record encoder: ids and metadata bags -/

/-- Message vector id `f"{user_id}:{session_id}:{timestamp}:{role}"`. -/
def message_vid (user_id session_id timestamp role : String) : String :=
  user_id ++ ":" ++ session_id ++ ":" ++ timestamp ++ ":" ++ role

/-- `hashlib.sha1(text.encode("utf-8")).hexdigest()[:12]`. -/
def digest12 (text : String) : String := (sha1Hex text).take 12

/-- User-fact vector id `f"user:{user_id}:fact:{h}"`. -/
def fact_vid (user_id fact_text : String) : String :=
  "user:" ++ user_id ++ ":fact:" ++ digest12 fact_text

/-- Memory vector id `f"memory:{memory_id}"`. -/
def memory_vid (memory_id : String) : String := "memory:" ++ memory_id

/-- Metadata dict built by `upsert_message_embedding` (and the message branch
of `bulk_upsert`). -/
def message_meta (user_id session_id role timestamp text : String) : Metadata :=
  [("user_id", user_id), ("session_id", session_id), ("role", role),
   ("timestamp", timestamp), ("text", text), ("kind", "message")]

/-- Metadata dict built by `upsert_user_fact_embedding` (and the user-fact
branch of `bulk_upsert`). -/
def user_fact_meta (user_id timestamp text category : String) : Metadata :=
  [("user_id", user_id), ("session_id", ""), ("role", "fact"),
   ("timestamp", timestamp), ("text", text), ("kind", "user_fact"),
   ("category", category)]

/-- Metadata dict built by `upsert_memory_embedding`. -/
def memory_meta (user_id memory_id lifecycle_state text : String) : Metadata :=
  [("user_id", user_id), ("kind", "memory"), ("memory_id", memory_id),
   ("lifecycle_state", lifecycle_state), ("text", text)]

/-! ### Memory store facade

Each operation returns its Python result as `Except PyErr _` (`.error`
meaning an exception propagated to the caller) together with the ordered
trace of attempted provider calls. -/

/-- The shared write pattern
`try: index.upsert(vectors=v, namespace=ns) except TypeError: index.upsert(vectors=v)`
as it appears inside an enclosing `except Exception` handler: only the trace
matters, no exception escapes. -/
def upsert_ns_fallback (h : IndexHandle) (v : List VecRec) (ns : String) : List Call :=
  match h.upsert v (some ns) with
  | .ok _ => [.upsertCall v (some ns)]
  | .error .typeError => [.upsertCall v (some ns), .upsertCall v none]
  | .error .otherError => [.upsertCall v (some ns)]

/-- `upsert_message_embedding(user_id, session_id, text, role, timestamp)`. -/
def upsert_message_embedding (env : Env) (st : Option IndexHandle)
    (user_id session_id text role timestamp : String) :
    Except PyErr Unit × List Call :=
  match ensure_index_ready env st with
  | none => (.ok (), [])
  | some h =>
    if text = "" then (.ok (), [])
    else
      match embTruthy (env.create_embedding text) with
      | none => (.ok (), [])
      | some emb =>
          let vid := message_vid user_id session_id timestamp role
          let md := message_meta user_id session_id role timestamp text
          (.ok (), upsert_ns_fallback h [(vid, emb, md)] ("user:" ++ user_id))

/-- `upsert_user_fact_embedding(user_id, fact_text, timestamp, category)`. -/
def upsert_user_fact_embedding (env : Env) (st : Option IndexHandle)
    (user_id fact_text timestamp category : String) :
    Except PyErr Unit × List Call :=
  match ensure_index_ready env st with
  | none => (.ok (), [])
  | some h =>
    if fact_text = "" then (.ok (), [])
    else
      match embTruthy (env.create_embedding fact_text) with
      | none => (.ok (), [])
      | some emb =>
          let vid := fact_vid user_id fact_text
          let md := user_fact_meta user_id timestamp fact_text category
          (.ok (), upsert_ns_fallback h [(vid, emb, md)] ("user:" ++ user_id))

/-- `upsert_memory_embedding(memory_id, user_id, text, lifecycle_state)`. -/
def upsert_memory_embedding (env : Env) (st : Option IndexHandle)
    (memory_id user_id text lifecycle_state : String) :
    Except PyErr Unit × List Call :=
  match ensure_index_ready env st with
  | none => (.ok (), [])
  | some h =>
    if text = "" then (.ok (), [])
    else
      match embTruthy (env.create_embedding text) with
      | none => (.ok (), [])
      | some emb =>
          let vid := memory_vid memory_id
          let md := memory_meta user_id memory_id lifecycle_state text
          (.ok (), upsert_ns_fallback h [(vid, emb, md)] ("user:" ++ user_id))

/-- One `bulk_upsert` payload dict; absent keys are `none`. -/
structure Payload where
  text : Option String
  kind : Option String
  role : Option String
  user_id : Option String
  session_id : Option String
  timestamp : Option String
  category : Option String
deriving DecidableEq, Repr

/-- Encoding of one `bulk_upsert` payload inside the loop: `none` when the
item is skipped (falsy text or falsy embedding). -/
def encode_payload (embed : String → Option Vec) (item : Payload) : Option VecRec :=
  match truthyStr item.text with
  | none => none
  | some text =>
    match embTruthy (embed text) with
    | none => none
    | some emb =>
      let kind := ((truthyStr item.kind).orElse (fun _ => truthyStr item.role)).getD "message"
      let user_id := item.user_id.getD ""
      let ts := item.timestamp.getD ""
      if kind = "user_fact" then
        some (fact_vid user_id text, emb,
          user_fact_meta user_id ts text (item.category.getD "generic"))
      else
        let session_id := item.session_id.getD ""
        let role := item.role.getD "user"
        some (message_vid user_id session_id ts role, emb,
          message_meta user_id session_id role ts text)

/-- The `vectors` list accumulated by `bulk_upsert`'s loop. -/
def bulk_vectors (embed : String → Option Vec) (payloads : List Payload) : List VecRec :=
  payloads.filterMap (encode_payload embed)

/-- `next((it.get("user_id") for it in payloads if it.get("user_id")), "")`. -/
def first_user (payloads : List Payload) : String :=
  (payloads.findSome? (fun it => truthyStr it.user_id)).getD ""

/-- `bulk_upsert(payloads)`. -/
def bulk_upsert (env : Env) (st : Option IndexHandle) (payloads : List Payload) :
    Except PyErr Unit × List Call :=
  match ensure_index_ready env st with
  | none => (.ok (), [])
  | some h =>
    let vectors := bulk_vectors env.create_embedding payloads
    if vectors.isEmpty then (.ok (), [])
    else
      let fu := first_user payloads
      if fu = "" then
        match h.upsert vectors none with
        | .error .typeError => (.ok (), [.upsertCall vectors none, .upsertCall vectors none])
        | _ => (.ok (), [.upsertCall vectors none])
      else (.ok (), upsert_ns_fallback h vectors ("user:" ++ fu))

/-- The shared read pattern
`try: res = index.query(namespace=ns, **kwargs) except TypeError: res = index.query(**kwargs)`
inside an enclosing `except Exception` handler: `none` means the attempt
ultimately raised (and the caller yields its empty result). -/
def query_ns_fallback (h : IndexHandle) (args : QueryArgs) :
    Option (Option (List MatchRec)) × List Call :=
  match h.query args with
  | .ok r => (some r, [.queryCall args])
  | .error .typeError =>
      let args2 := { args with ns := none }
      match h.query args2 with
      | .ok r => (some r, [.queryCall args, .queryCall args2])
      | .error _ => (none, [.queryCall args, .queryCall args2])
  | .error .otherError => (none, [.queryCall args])

/-- `query_similar_texts(user_id, text, top_k)`. -/
def query_similar_texts (env : Env) (st : Option IndexHandle)
    (user_id text : String) (top_k : Nat) :
    Except PyErr (Option String) × List Call :=
  match ensure_index_ready env st with
  | none => (.ok none, [])
  | some h =>
    if text = "" then (.ok none, [])
    else
      match embTruthy (env.create_embedding text) with
      | none => (.ok none, [])
      | some emb =>
        let args : QueryArgs :=
          { vector := emb, top_k := top_k, include_metadata := true,
            filter := [("user_id", user_id), ("kind", "message")],
            ns := some ("user:" ++ user_id) }
        match query_ns_fallback h args with
        | (none, tr) => (.ok none, tr)
        | (some res, tr) =>
          let snippets := (res.getD []).filterMap
            (fun m => truthyStr (mget (m.metadata.getD []) "text"))
          (.ok (if snippets.isEmpty then none
                else some (String.intercalate "\n---\n" snippets)), tr)

/-- The deduplicating result loop of `query_user_facts`. -/
def dedup_fact_texts (ms : List MatchRec) : List String :=
  ms.foldl (fun out m =>
    match m.metadata with
    | some md =>
      match truthyStr (mget md "text") with
      | some txt => if txt ∈ out then out else out ++ [txt]
      | none => out
    | none => out) []

/-- `query_user_facts(user_id, hint_text, top_k)`; the embedded text is
`hint_text or user_id`. -/
def query_user_facts (env : Env) (st : Option IndexHandle)
    (user_id hint_text : String) (top_k : Nat) :
    Except PyErr (List String) × List Call :=
  match ensure_index_ready env st with
  | none => (.ok [], [])
  | some h =>
    match embTruthy (env.create_embedding
        (if hint_text = "" then user_id else hint_text)) with
    | none => (.ok [], [])
    | some emb =>
      let args : QueryArgs :=
        { vector := emb, top_k := top_k, include_metadata := true,
          filter := [("user_id", user_id), ("kind", "user_fact")],
          ns := some ("user:" ++ user_id) }
      match query_ns_fallback h args with
      | (none, tr) => (.ok [], tr)
      | (some res, tr) => (.ok (dedup_fact_texts (res.getD [])), tr)

/-- One record of `query_user_memories`' result list. -/
structure MemoryOut where
  memory_id : Option String
  similarity : Option ℚ
  text : Option String
  lifecycle_state : Option String
deriving DecidableEq, Repr

/-- The result loop of `query_user_memories`: a match without dict metadata is
dropped; a match whose `lifecycle_state` is truthy but outside
`("active", "candidate", "distilled")` is skipped (`continue`); everything
else is shaped into a `MemoryOut`. -/
def shape_memory_matches (ms : List MatchRec) : List MemoryOut :=
  ms.filterMap (fun m =>
    match m.metadata with
    | none => none
    | some md =>
      let lc := mget md "lifecycle_state"
      match truthyStr lc with
      | some l =>
        if l = "active" ∨ l = "candidate" ∨ l = "distilled" then
          some ⟨mget md "memory_id", m.score, mget md "text", lc⟩
        else none
      | none => some ⟨mget md "memory_id", m.score, mget md "text", lc⟩)

/-- `query_user_memories(user_id, query_text, top_k)`. -/
def query_user_memories (env : Env) (st : Option IndexHandle)
    (user_id query_text : String) (top_k : Nat) :
    Except PyErr (List MemoryOut) × List Call :=
  match ensure_index_ready env st with
  | none => (.ok [], [])
  | some h =>
    if query_text = "" then (.ok [], [])
    else
      match embTruthy (env.create_embedding query_text) with
      | none => (.ok [], [])
      | some emb =>
        let args : QueryArgs :=
          { vector := emb, top_k := top_k, include_metadata := true,
            filter := [("user_id", user_id), ("kind", "memory")],
            ns := some ("user:" ++ user_id) }
        match query_ns_fallback h args with
        | (none, tr) => (.ok [], tr)
        | (some res, tr) => (.ok (shape_memory_matches (res.getD [])), tr)

/-- Python truthiness of the metadata object (`... and md`). -/
def truthyMeta : Option Metadata → Bool
  | some md => !md.isEmpty
  | none => false

/-- The result shaping of `query_relevant_summary`: look only at the first
match; return its `"summary"` metadata field iff `(score or 0) > 0.75` and the
metadata dict is truthy. -/
def summary_from_matches (ms : List MatchRec) : Option String :=
  match ms with
  | [] => none
  | best :: _ =>
    if best.score.getD 0 > 3 / 4 ∧ truthyMeta best.metadata then
      mget (best.metadata.getD []) "summary"
    else none

/-- `query_relevant_summary(text, top_k)`; its single query carries no
namespace and no filter. -/
def query_relevant_summary (env : Env) (st : Option IndexHandle)
    (text : String) (top_k : Nat) :
    Except PyErr (Option String) × List Call :=
  match ensure_index_ready env st with
  | none => (.ok none, [])
  | some h =>
    match embTruthy (env.create_embedding text) with
    | none => (.ok none, [])
    | some emb =>
      let args : QueryArgs :=
        { vector := emb, top_k := top_k, include_metadata := true,
          filter := [], ns := none }
      match h.query args with
      | .ok res => (.ok (summary_from_matches (res.getD [])), [.queryCall args])
      | .error _ => (.ok none, [.queryCall args])

/-- `delete_vectors(vector_ids, namespace)`.  The `except TypeError:` handler
re-calls `index.delete(ids=...)` with NO surrounding try, so an exception
raised by that fallback call propagates to the caller. -/
def delete_vectors (env : Env) (st : Option IndexHandle)
    (vector_ids : List String) (ns : Option String) :
    Except PyErr Unit × List Call :=
  match ensure_index_ready env st with
  | none => (.ok (), [])
  | some h =>
    if vector_ids.isEmpty then (.ok (), [])
    else
      let args1 : DeleteArgs := { ids := some vector_ids, ns := ns, delete_all := false }
      match h.delete args1 with
      | .ok _ => (.ok (), [.deleteCall args1])
      | .error .typeError =>
        let args2 : DeleteArgs := { ids := some vector_ids, ns := none, delete_all := false }
        ((h.delete args2).map (fun _ => ()), [.deleteCall args1, .deleteCall args2])
      | .error .otherError => (.ok (), [.deleteCall args1])

/-- `delete_user_memory_vectors(user_id, memory_id)`: wraps
`delete_vectors([f"memory:{memory_id}"])` in `try/except Exception: pass`. -/
def delete_user_memory_vectors (env : Env) (st : Option IndexHandle)
    (user_id memory_id : String) : Except PyErr Unit × List Call :=
  let r := delete_vectors env st [memory_vid memory_id] none
  (.ok (), r.2)

/-- `delete_user_namespace(user_id)`: both its `except` arms absorb. -/
def delete_user_namespace (env : Env) (st : Option IndexHandle)
    (user_id : String) : Except PyErr Unit × List Call :=
  match ensure_index_ready env st with
  | none => (.ok (), [])
  | some h =>
    let args : DeleteArgs :=
      { ids := none, ns := some ("user:" ++ user_id), delete_all := true }
    match h.delete args with
    | .ok _ => (.ok (), [.deleteCall args])
    | .error .typeError => (.ok (), [.deleteCall args])
    | .error .otherError => (.ok (), [.deleteCall args])

/-! ### Index lifecycle manager (`initialize_pinecone`) -/

/-- Value of the module constant `REQUIRED_DIMENSION`. -/
def REQUIRED_DIMENSION : Nat := 1536

/-- Provider-side state for initialization: existing index names with the
dimension their description reports (`none` when the description carries no
dimension). -/
abbrev ProviderIndexes := List (String × Option Nat)

/-- `describe_index(name)` followed by the dimension extraction. -/
def describe_dimension (prov : ProviderIndexes) (name : String) : Option Nat :=
  (prov.find? (fun p => p.1 == name)).bind Prod.snd

/-- One provider call of `initialize_pinecone`. -/
inductive InitCall where
  | listIndexes
  | describeIndex (name : String)
  | deleteIndex (name : String)
  | createIndex (name : String) (dim : Nat)
  | bindIndex (name : String)
deriving DecidableEq, Repr

/-- The v3-SDK branch of `initialize_pinecone`: list the indexes, describe the
target if present, delete it on dimension mismatch, create iff
`create_new_index` was set, then bind the handle. -/
def initialize_v3 (prov : ProviderIndexes) (name : String) : List InitCall :=
  let existing_names := prov.map Prod.fst
  let (pre, create_new_index) :=
    if name ∈ existing_names then
      let dim := describe_dimension prov name
      if dim ≠ some REQUIRED_DIMENSION then
        ([InitCall.listIndexes, InitCall.describeIndex name, InitCall.deleteIndex name], true)
      else
        ([InitCall.listIndexes, InitCall.describeIndex name], false)
    else ([InitCall.listIndexes], true)
  (if create_new_index then pre ++ [InitCall.createIndex name REQUIRED_DIMENSION] else pre)
    ++ [InitCall.bindIndex name]

/-- The v2-SDK branch of `initialize_pinecone`: same decision procedure over
the legacy call surface (`create_index` without a serverless spec). -/
def initialize_v2 (prov : ProviderIndexes) (name : String) : List InitCall :=
  let existing := prov.map Prod.fst
  let (pre, create_new_index) :=
    if name ∈ existing then
      let dim := describe_dimension prov name
      if dim ≠ some REQUIRED_DIMENSION then
        ([InitCall.listIndexes, InitCall.describeIndex name, InitCall.deleteIndex name], true)
      else
        ([InitCall.listIndexes, InitCall.describeIndex name], false)
    else ([InitCall.listIndexes], true)
  (if create_new_index then pre ++ [InitCall.createIndex name REQUIRED_DIMENSION] else pre)
    ++ [InitCall.bindIndex name]

/-- Number of `createIndex` calls in a trace. -/
def countCreate (tr : List InitCall) : Nat :=
  tr.countP (fun c => match c with | .createIndex _ _ => true | _ => false)

/-- Number of `deleteIndex` calls in a trace. -/
def countDelete (tr : List InitCall) : Nat :=
  tr.countP (fun c => match c with | .deleteIndex _ => true | _ => false)

/-! ### Concrete fixtures used by witnesses and counterexamples -/

/-- A well-behaved index handle: every call succeeds, queries return no match. -/
def okHandle : IndexHandle :=
  { upsert := fun _ _ => .ok (), query := fun _ => .ok (some []),
    delete := fun _ => .ok () }

/-- Environment with failed re-initialization (e.g. no credentials) and a
failing embedding provider. -/
def deadEnv : Env := { reinit := none, create_embedding := fun _ => none }

/-- Embedding provider returning the one-entry vector `[1]` for any text. -/
def unitEmbed : String → Option Vec := fun _ => some [1]

/-- Embedding provider failing exactly on the text `"bad"`. -/
def helloEmbed : String → Option Vec := fun t => if t = "bad" then none else some [1]

/-- Environment around a given embedding provider, with no re-initialization. -/
def envWith (e : String → Option Vec) : Env := { reinit := none, create_embedding := e }

/-- Handle whose namespaced delete raises `TypeError` and whose plain delete
then raises a generic exception. -/
def badDeleteHandle : IndexHandle :=
  { upsert := fun _ _ => .ok (), query := fun _ => .ok (some []),
    delete := fun args =>
      match args.ns with
      | some _ => .error .typeError
      | none => .error .otherError }

/-- Handle answering every query with the given match list. -/
def handleMatches (ms : List MatchRec) : IndexHandle :=
  { upsert := fun _ _ => .ok (), query := fun _ => .ok (some ms),
    delete := fun _ => .ok () }

/-- A match whose metadata carries a `lifecycle_state` key that is present but
empty. -/
def lcEmptyMatch : MatchRec :=
  ⟨some (9 / 10), some [("lifecycle_state", ""), ("memory_id", "m1"), ("text", "tea")]⟩

/-- A match whose lifecycle state is `"active"`. -/
def lcActiveMatch : MatchRec :=
  ⟨some (4 / 5), some [("lifecycle_state", "active"), ("memory_id", "m2"), ("text", "coffee")]⟩

/-- A valid message payload for `bulk_upsert`. -/
def payloadHello : Payload :=
  { text := some "hello", kind := some "message", role := some "user",
    user_id := some "u1", session_id := some "s1", timestamp := some "t1",
    category := none }

/-- A payload with empty text (skipped by `bulk_upsert`). -/
def payloadEmpty : Payload :=
  { text := some "", kind := some "message", role := some "user",
    user_id := some "u1", session_id := some "s1", timestamp := some "t2",
    category := none }

/-- A second valid message payload for `bulk_upsert`. -/
def payloadWorld : Payload :=
  { text := some "world", kind := some "message", role := some "user",
    user_id := some "u1", session_id := some "s1", timestamp := some "t3",
    category := none }

/-- A payload whose text the `helloEmbed` provider fails to embed. -/
def payloadBad : Payload :=
  { text := some "bad", kind := some "message", role := some "user",
    user_id := some "u1", session_id := some "s1", timestamp := some "t4",
    category := none }

/-- Provider listing holding the target index at the required dimension. -/
def provOk : ProviderIndexes := [("maya2-session-memory", some 1536)]

/-- Provider listing holding the target index at a wrong dimension. -/
def provWrong : ProviderIndexes := [("maya2-session-memory", some 768)]

/-! ### Helper lemmas -/

/-- Left-cancellation for string concatenation. -/
theorem string_append_cancel_left {s a b : String} (h : s ++ a = s ++ b) : a = b := by
  have h2 := congrArg String.data h
  simp only [String.data_append] at h2
  exact String.ext (List.append_cancel_left h2)

/-- Unfolding `truthyStr` at a truthy result. -/
theorem truthyStr_eq_some {o : Option String} {l : String}
    (h : truthyStr o = some l) : o = some l ∧ l ≠ "" := by
  cases o with
  | none => simp [truthyStr] at h
  | some s =>
    by_cases hs : s = "" <;> simp [truthyStr, hs] at h
    subst h; exact ⟨rfl, hs⟩

/-- Unfolding `truthyStr` at a falsy result. -/
theorem truthyStr_eq_none {o : Option String}
    (h : truthyStr o = none) : o = none ∨ o = some "" := by
  cases o with
  | none => exact Or.inl rfl
  | some s =>
    by_cases hs : s = "" <;> simp [truthyStr, hs] at h
    exact Or.inr (by rw [hs])

/-- The trace of the shared query fallback always starts with the namespaced
query call. -/
theorem query_ns_fallback_head (h : IndexHandle) (args : QueryArgs) :
    (query_ns_fallback h args).2.head? = some (.queryCall args) := by
  unfold query_ns_fallback
  cases h.query args with
  | ok r => rfl
  | error e => cases e with
    | typeError =>
      dsimp only
      cases h.query { args with ns := none } <;> rfl
    | otherError => rfl

/-- Unfolding of `query_user_facts` on a ready handle with a truthy
embedding. -/
theorem query_user_facts_ready (env : Env) (h : IndexHandle)
    (user_id hint_text : String) (k : Nat) (v : Vec)
    (hemb : embTruthy (env.create_embedding
      (if hint_text = "" then user_id else hint_text)) = some v) :
    query_user_facts env (some h) user_id hint_text k =
      (match query_ns_fallback h
          { vector := v, top_k := k, include_metadata := true,
            filter := [("user_id", user_id), ("kind", "user_fact")],
            ns := some ("user:" ++ user_id) } with
       | (none, tr) => (.ok [], tr)
       | (some res, tr) => (.ok (dedup_fact_texts (res.getD [])), tr)) := by
  simp only [query_user_facts, ensure_index_ready]
  rw [hemb]

/-! ### Claims -/

/-- C1: if `_ensure_index_ready()` reports unready, every public facade
operation returns without raising and performs no provider call: the three
single-record upserts, `bulk_upsert` and the deletion helpers are no-ops,
`query_similar_texts` returns `none`, and `query_user_facts` and
`query_user_memories` return the empty list. -/
theorem unready_operations_are_noops (env : Env) (st : Option IndexHandle)
    (hready : ensure_index_ready env st = none)
    (user_id session_id text role timestamp fact_text category memory_id
      lifecycle_state hint_text query_text : String)
    (payloads : List Payload) (ids : List String) (ns : Option String) (k : Nat) :
    upsert_message_embedding env st user_id session_id text role timestamp = (.ok (), []) ∧
    upsert_user_fact_embedding env st user_id fact_text timestamp category = (.ok (), []) ∧
    upsert_memory_embedding env st memory_id user_id text lifecycle_state = (.ok (), []) ∧
    bulk_upsert env st payloads = (.ok (), []) ∧
    query_similar_texts env st user_id text k = (.ok none, []) ∧
    query_user_facts env st user_id hint_text k = (.ok [], []) ∧
    query_user_memories env st user_id query_text k = (.ok [], []) ∧
    delete_vectors env st ids ns = (.ok (), []) ∧
    delete_user_memory_vectors env st user_id memory_id = (.ok (), []) ∧
    delete_user_namespace env st user_id = (.ok (), []) := by
  refine ⟨?_, ?_, ?_, ?_, ?_, ?_, ?_, ?_, ?_, ?_⟩ <;>
    simp [upsert_message_embedding, upsert_user_fact_embedding, upsert_memory_embedding,
      bulk_upsert, query_similar_texts, query_user_facts, query_user_memories,
      delete_vectors, delete_user_memory_vectors, delete_user_namespace, hready]

/-- Witness for C1 at a concrete unready environment. -/
theorem unready_operations_are_noops_witness :
    upsert_message_embedding deadEnv none "u" "s" "hi" "user" "t" = (.ok (), []) ∧
    upsert_user_fact_embedding deadEnv none "u" "likes tea" "t" "generic" = (.ok (), []) ∧
    upsert_memory_embedding deadEnv none "m" "u" "hi" "active" = (.ok (), []) ∧
    bulk_upsert deadEnv none [payloadHello] = (.ok (), []) ∧
    query_similar_texts deadEnv none "u" "hi" 3 = (.ok none, []) ∧
    query_user_facts deadEnv none "u" "hint" 3 = (.ok [], []) ∧
    query_user_memories deadEnv none "u" "q" 3 = (.ok [], []) ∧
    delete_vectors deadEnv none ["id1"] none = (.ok (), []) ∧
    delete_user_memory_vectors deadEnv none "u" "m" = (.ok (), []) ∧
    delete_user_namespace deadEnv none "u" = (.ok (), []) :=
  unready_operations_are_noops deadEnv none rfl "u" "s" "hi" "user" "t" "likes tea"
    "generic" "m" "active" "hint" "q" [payloadHello] ["id1"] none 3

/-- C2 (code bug): the `except TypeError:` handler of `delete_vectors` re-calls
`index.delete(ids=...)` with no surrounding try, so when the namespaced delete
raises `TypeError` and the plain fallback delete then raises, the exception
propagates to the caller instead of being absorbed. -/
theorem delete_vectors_propagates_fallback_error :
    delete_vectors deadEnv (some badDeleteHandle) ["memory:m1"] (some "user:u1")
      = (.error .otherError,
         [.deleteCall { ids := some ["memory:m1"], ns := some "user:u1", delete_all := false },
          .deleteCall { ids := some ["memory:m1"], ns := none, delete_all := false }]) := rfl

/-- C3 counterexample: the vector record written by `upsert_memory_embedding`
carries no `timestamp` metadata key, contradicting "always contains ...
`timestamp`". -/
theorem memory_upsert_metadata_lacks_timestamp :
    (upsert_memory_embedding (envWith unitEmbed) (some okHandle) "m1" "u1" "remember tea" "active").2
      = [.upsertCall [(("memory:" ++ "m1" : String), ([1] : Vec),
          memory_meta "u1" "m1" "active" "remember tea")] (some ("user:" ++ "u1"))] ∧
    mget (memory_meta "u1" "m1" "active" "remember tea") "timestamp" = none :=
  ⟨rfl, rfl⟩

/-- C3 amended: every upsert metadata bag contains `kind`, `user_id` and
`text`; the message and fact bags additionally contain `timestamp` plus their
kind-specific extras (`role`, `session_id`; `category`), while the memory bag
contains `memory_id` and `lifecycle_state` but NO `timestamp` key. -/
theorem upsert_metadata_keys (user_id session_id role timestamp text category
    memory_id lifecycle_state : String) :
    mget (message_meta user_id session_id role timestamp text) "kind" = some "message" ∧
    mget (message_meta user_id session_id role timestamp text) "user_id" = some user_id ∧
    mget (message_meta user_id session_id role timestamp text) "text" = some text ∧
    mget (message_meta user_id session_id role timestamp text) "timestamp" = some timestamp ∧
    mget (message_meta user_id session_id role timestamp text) "role" = some role ∧
    mget (message_meta user_id session_id role timestamp text) "session_id" = some session_id ∧
    mget (user_fact_meta user_id timestamp text category) "kind" = some "user_fact" ∧
    mget (user_fact_meta user_id timestamp text category) "user_id" = some user_id ∧
    mget (user_fact_meta user_id timestamp text category) "text" = some text ∧
    mget (user_fact_meta user_id timestamp text category) "timestamp" = some timestamp ∧
    mget (user_fact_meta user_id timestamp text category) "category" = some category ∧
    mget (memory_meta user_id memory_id lifecycle_state text) "kind" = some "memory" ∧
    mget (memory_meta user_id memory_id lifecycle_state text) "user_id" = some user_id ∧
    mget (memory_meta user_id memory_id lifecycle_state text) "text" = some text ∧
    mget (memory_meta user_id memory_id lifecycle_state text) "memory_id" = some memory_id ∧
    mget (memory_meta user_id memory_id lifecycle_state text) "lifecycle_state" = some lifecycle_state ∧
    mget (memory_meta user_id memory_id lifecycle_state text) "timestamp" = none :=
  ⟨rfl, rfl, rfl, rfl, rfl, rfl, rfl, rfl, rfl, rfl, rfl, rfl, rfl, rfl, rfl, rfl, rfl⟩

/-- C4: on every call of either SDK-shape branch of `initialize_pinecone`,
exactly one create-or-reuse outcome occurs: absent target → one create at
`REQUIRED_DIMENSION`; present with wrong described dimension → delete then one
create; present with matching dimension → reuse with no create; never two
create calls. -/
theorem initialize_decision (prov : ProviderIndexes) (name : String) :
    (name ∉ prov.map Prod.fst →
      initialize_v3 prov name
          = [.listIndexes, .createIndex name REQUIRED_DIMENSION, .bindIndex name] ∧
      initialize_v2 prov name
          = [.listIndexes, .createIndex name REQUIRED_DIMENSION, .bindIndex name]) ∧
    (name ∈ prov.map Prod.fst →
      describe_dimension prov name ≠ some REQUIRED_DIMENSION →
      initialize_v3 prov name
          = [.listIndexes, .describeIndex name, .deleteIndex name,
             .createIndex name REQUIRED_DIMENSION, .bindIndex name] ∧
      initialize_v2 prov name
          = [.listIndexes, .describeIndex name, .deleteIndex name,
             .createIndex name REQUIRED_DIMENSION, .bindIndex name]) ∧
    (name ∈ prov.map Prod.fst →
      describe_dimension prov name = some REQUIRED_DIMENSION →
      initialize_v3 prov name = [.listIndexes, .describeIndex name, .bindIndex name] ∧
      initialize_v2 prov name = [.listIndexes, .describeIndex name, .bindIndex name]) ∧
    countCreate (initialize_v3 prov name) ≤ 1 ∧
    countCreate (initialize_v2 prov name) ≤ 1 := by
  by_cases hm : name ∈ prov.map Prod.fst <;>
    by_cases hd : describe_dimension prov name = some REQUIRED_DIMENSION <;>
      simp [initialize_v3, initialize_v2, countCreate, hm, hd, List.countP_cons,
        List.countP_nil]

/-- Witness for C4: the reuse case and the delete-then-create case at concrete
provider listings. -/
theorem initialize_decision_witness :
    initialize_v3 provOk "maya2-session-memory"
        = [.listIndexes, .describeIndex "maya2-session-memory",
           .bindIndex "maya2-session-memory"] ∧
    initialize_v2 provOk "maya2-session-memory"
        = [.listIndexes, .describeIndex "maya2-session-memory",
           .bindIndex "maya2-session-memory"] ∧
    initialize_v3 provWrong "maya2-session-memory"
        = [.listIndexes, .describeIndex "maya2-session-memory",
           .deleteIndex "maya2-session-memory",
           .createIndex "maya2-session-memory" REQUIRED_DIMENSION,
           .bindIndex "maya2-session-memory"] ∧
    initialize_v3 [] "maya2-session-memory"
        = [.listIndexes, .createIndex "maya2-session-memory" REQUIRED_DIMENSION,
           .bindIndex "maya2-session-memory"] := by
  refine ⟨?_, ?_, ?_, ?_⟩
  · exact ((initialize_decision provOk "maya2-session-memory").2.2.1
      (by decide) (by decide)).1
  · exact ((initialize_decision provOk "maya2-session-memory").2.2.1
      (by decide) (by decide)).2
  · exact ((initialize_decision provWrong "maya2-session-memory").2.1
      (by decide) (by decide)).1
  · exact ((initialize_decision [] "maya2-session-memory").1 (by decide)).1

/-- C5 counterexample: two distinct fact texts whose SHA-1 digests agree on
their first 12 hex characters, so `upsert_user_fact_embedding` derives the SAME
vector id for both. -/
theorem fact_id_collision :
    ("15068028" : String) ≠ "19926426" ∧
    fact_vid "u1" "15068028" = fact_vid "u1" "19926426" :=
  ⟨by decide, by decide⟩

/-- C5 amended: the fact id is `"user:{user_id}:fact:{digest12}"` with
`digest12` the first 12 hex characters of the SHA-1 of the fact text; two fact
texts give the same id for a user iff their truncated digests coincide, so
identical text is idempotent (same id, overwrite) while distinct texts produce
distinct ids exactly when their 12-character digests differ (48-bit truncation
admits collisions). -/
theorem fact_id_digest (user_id t1 t2 : String) :
    fact_vid user_id t1 = "user:" ++ user_id ++ ":fact:" ++ (sha1Hex t1).take 12 ∧
    (fact_vid user_id t1 = fact_vid user_id t2 ↔ digest12 t1 = digest12 t2) := by
  refine ⟨rfl, ?_, ?_⟩
  · intro h
    unfold fact_vid at h
    exact string_append_cancel_left h
  · intro h
    simp [fact_vid, h]

/-- C6 counterexample: the lifecycle filter tests Python truthiness, not
presence — a match whose metadata carries `lifecycle_state` present-but-empty
(`""`), which is not one of `active`/`candidate`/`distilled`, IS returned by
`query_user_memories`. -/
theorem memories_return_empty_lifecycle :
    (query_user_memories (envWith unitEmbed)
        (some (handleMatches [lcEmptyMatch])) "u1" "tea" 8).1
      = .ok [⟨some "m1", some (9 / 10), some "tea", some ""⟩] ∧
    mget [("lifecycle_state", ""), ("memory_id", "m1"), ("text", "tea")]
        "lifecycle_state" = some "" ∧
    ¬ ("" = "active" ∨ "" = "candidate" ∨ "" = "distilled") :=
  ⟨rfl, rfl, by decide⟩

/-- C6 amended: `query_user_memories` never returns a record whose
`lifecycle_state` is present AND non-empty yet outside
`{active, candidate, distilled}`; every returned record is shaped
`{memory_id, similarity, text, lifecycle_state}` from a match's metadata and
score. -/
theorem memory_results_respect_lifecycle (ms : List MatchRec) (r : MemoryOut)
    (hr : r ∈ shape_memory_matches ms) :
    (∀ lc, r.lifecycle_state = some lc → lc ≠ "" →
      lc = "active" ∨ lc = "candidate" ∨ lc = "distilled") ∧
    (∃ m ∈ ms, ∃ md, m.metadata = some md ∧
      r = ⟨mget md "memory_id", m.score, mget md "text", mget md "lifecycle_state"⟩) := by
  simp only [shape_memory_matches, List.mem_filterMap] at hr
  obtain ⟨m, hm, hf⟩ := hr
  cases hmd : m.metadata with
  | none => rw [hmd] at hf; exact absurd hf (by simp)
  | some md =>
    rw [hmd] at hf
    simp only at hf
    cases hlc : truthyStr (mget md "lifecycle_state") with
    | some l =>
      rw [hlc] at hf
      simp only at hf
      by_cases hset : l = "active" ∨ l = "candidate" ∨ l = "distilled"
      · simp only [if_pos hset] at hf
        obtain ⟨hmem, -⟩ := truthyStr_eq_some hlc
        injection hf with hf
        subst hf
        refine ⟨?_, m, hm, md, hmd, rfl⟩
        intro lc hlceq _
        rw [hmem] at hlceq
        injection hlceq with hlceq
        subst hlceq
        exact hset
      · rw [if_neg hset] at hf
        exact absurd hf (by simp)
    | none =>
      rw [hlc] at hf
      simp only at hf
      injection hf with hf
      subst hf
      refine ⟨?_, m, hm, md, hmd, rfl⟩
      intro lc hlceq hne
      rcases truthyStr_eq_none hlc with h0 | h0 <;> rw [h0] at hlceq
      · exact absurd hlceq (by simp)
      · injection hlceq with hlceq
        exact absurd hlceq.symm hne

/-- Witness for C6 (amended) at a concrete active-lifecycle match. -/
theorem memory_results_respect_lifecycle_witness :
    (∀ lc, (⟨some "m2", some (4 / 5), some "coffee", some "active"⟩ :
        MemoryOut).lifecycle_state = some lc → lc ≠ "" →
      lc = "active" ∨ lc = "candidate" ∨ lc = "distilled") ∧
    (∃ m ∈ [lcActiveMatch], ∃ md, m.metadata = some md ∧
      (⟨some "m2", some (4 / 5), some "coffee", some "active"⟩ : MemoryOut)
        = ⟨mget md "memory_id", m.score, mget md "text", mget md "lifecycle_state"⟩) :=
  memory_results_respect_lifecycle [lcActiveMatch] _ (by
    have h : shape_memory_matches [lcActiveMatch]
        = [⟨some "m2", some (4 / 5), some "coffee", some "active"⟩] := rfl
    rw [h]
    exact List.mem_singleton_self _)

/-- C7: in `bulk_upsert`, an item with falsy text or failed embedding is
skipped without aborting the batch; all successfully encoded vectors go out in
one batched upsert call; the batch namespace is `user:{u}` for `u` the first
payload with a truthy `user_id`, and with no such payload the batch is
submitted without a namespace argument. -/
theorem bulk_upsert_batching (env : Env) (h : IndexHandle) (payloads : List Payload) :
    (∀ item ∈ payloads, truthyStr item.text = none →
      encode_payload env.create_embedding item = none) ∧
    (∀ item ∈ payloads, ∀ t, truthyStr item.text = some t →
      embTruthy (env.create_embedding t) = none →
      encode_payload env.create_embedding item = none) ∧
    (bulk_vectors env.create_embedding payloads = [] →
      bulk_upsert env (some h) payloads = (.ok (), [])) ∧
    (bulk_vectors env.create_embedding payloads ≠ [] → first_user payloads ≠ "" →
      h.upsert (bulk_vectors env.create_embedding payloads)
          (some ("user:" ++ first_user payloads)) ≠ .error .typeError →
      (bulk_upsert env (some h) payloads).2
        = [.upsertCall (bulk_vectors env.create_embedding payloads)
            (some ("user:" ++ first_user payloads))]) ∧
    (bulk_vectors env.create_embedding payloads ≠ [] → first_user payloads = "" →
      h.upsert (bulk_vectors env.create_embedding payloads) none ≠ .error .typeError →
      (bulk_upsert env (some h) payloads).2
        = [.upsertCall (bulk_vectors env.create_embedding payloads) none]) := by
  refine ⟨?_, ?_, ?_, ?_, ?_⟩
  · intro item _ ht
    simp [encode_payload, ht]
  · intro item _ t ht hemb
    simp [encode_payload, ht, hemb]
  · intro hvs
    simp [bulk_upsert, ensure_index_ready, hvs]
  · intro hvs hfu hup
    cases hc : h.upsert (bulk_vectors env.create_embedding payloads)
        (some ("user:" ++ first_user payloads)) with
    | ok r =>
      simp [bulk_upsert, ensure_index_ready, upsert_ns_fallback,
        List.isEmpty_iff, hvs, hfu, hc]
    | error e => cases e with
      | typeError => exact absurd hc hup
      | otherError =>
        simp [bulk_upsert, ensure_index_ready, upsert_ns_fallback,
          List.isEmpty_iff, hvs, hfu, hc]
  · intro hvs hfu hup
    cases hc : h.upsert (bulk_vectors env.create_embedding payloads) none with
    | ok r =>
      simp [bulk_upsert, ensure_index_ready, List.isEmpty_iff, hvs, hfu, hc]
    | error e => cases e with
      | typeError => exact absurd hc hup
      | otherError =>
        simp [bulk_upsert, ensure_index_ready, List.isEmpty_iff, hvs, hfu, hc]

/-- Witness for C7: a batch of one empty-text item and two valid items yields
exactly two encoded vectors, submitted in one namespaced upsert call; an item
with failed embedding is also skipped. -/
theorem bulk_upsert_batching_witness :
    encode_payload (envWith unitEmbed).create_embedding payloadEmpty = none ∧
    encode_payload (envWith helloEmbed).create_embedding payloadBad = none ∧
    (bulk_upsert (envWith unitEmbed) (some okHandle)
        [payloadHello, payloadEmpty, payloadWorld]).2
      = [.upsertCall (bulk_vectors (envWith unitEmbed).create_embedding
            [payloadHello, payloadEmpty, payloadWorld])
          (some ("user:" ++ first_user [payloadHello, payloadEmpty, payloadWorld]))] ∧
    (bulk_vectors (envWith unitEmbed).create_embedding
        [payloadHello, payloadEmpty, payloadWorld]).length = 2 := by
  refine ⟨?_, ?_, ?_, rfl⟩
  · exact (bulk_upsert_batching (envWith unitEmbed) okHandle
      [payloadHello, payloadEmpty, payloadWorld]).1 payloadEmpty (by simp) rfl
  · exact (bulk_upsert_batching (envWith helloEmbed) okHandle [payloadBad]).2.1
      payloadBad (by simp) "bad" rfl rfl
  · exact (bulk_upsert_batching (envWith unitEmbed) okHandle
      [payloadHello, payloadEmpty, payloadWorld]).2.2.2.1
      (by decide) (by decide) (by simp [okHandle])

/-- C8: `delete_user_memory_vectors` issues its provider delete for the single
id `memory:{memory_id}` with no namespace argument, although
`upsert_memory_embedding` writes that id under namespace `user:{user_id}`. -/
theorem memory_delete_skips_namespace (env : Env) (st : Option IndexHandle)
    (h : IndexHandle) (user_id memory_id text lifecycle_state : String) :
    (∀ c ∈ (delete_user_memory_vectors env st user_id memory_id).2,
      c = .deleteCall { ids := some [memory_vid memory_id], ns := none,
                        delete_all := false }) ∧
    (h.delete { ids := some [memory_vid memory_id], ns := none, delete_all := false }
        ≠ .error .typeError →
      (delete_user_memory_vectors env (some h) user_id memory_id).2
        = [.deleteCall { ids := some [memory_vid memory_id], ns := none,
                         delete_all := false }]) ∧
    (∀ emb, text ≠ "" → embTruthy (env.create_embedding text) = some emb →
      ((upsert_memory_embedding env (some h) memory_id user_id text lifecycle_state).2).head?
        = some (.upsertCall [(memory_vid memory_id, emb,
            memory_meta user_id memory_id lifecycle_state text)]
          (some ("user:" ++ user_id)))) := by
  refine ⟨?_, ?_, ?_⟩
  · intro c hc
    simp only [delete_user_memory_vectors, delete_vectors] at hc
    cases he : ensure_index_ready env st with
    | none => rw [he] at hc; simp at hc
    | some h2 =>
      rw [he] at hc
      simp only at hc
      cases hd : h2.delete (DeleteArgs.mk (some [memory_vid memory_id]) none false) with
      | ok r =>
        rw [hd] at hc
        simp at hc
        simp [hc]
      | error e => cases e with
        | typeError =>
          rw [hd] at hc
          simp at hc
          simp [hc]
        | otherError =>
          rw [hd] at hc
          simp at hc
          simp [hc]
  · intro hne
    cases hc : h.delete (DeleteArgs.mk (some [memory_vid memory_id]) none false) with
    | ok r =>
      simp [delete_user_memory_vectors, delete_vectors, ensure_index_ready, hc]
    | error e => cases e with
      | typeError => exact absurd hc hne
      | otherError =>
        simp [delete_user_memory_vectors, delete_vectors, ensure_index_ready, hc]
  · intro emb htext hemb
    cases hc : h.upsert [(memory_vid memory_id, emb,
        memory_meta user_id memory_id lifecycle_state text)]
        (some ("user:" ++ user_id)) with
    | ok r =>
      simp [upsert_memory_embedding, ensure_index_ready, upsert_ns_fallback,
        htext, hemb, hc]
    | error e => cases e <;>
        simp [upsert_memory_embedding, ensure_index_ready, upsert_ns_fallback,
          htext, hemb, hc]

/-- Witness for C8 at a concrete memory id and well-behaved handle. -/
theorem memory_delete_skips_namespace_witness :
    (delete_user_memory_vectors (envWith unitEmbed) (some okHandle) "u1" "m1").2
      = [.deleteCall { ids := some [memory_vid "m1"], ns := none,
                       delete_all := false }] ∧
    ((upsert_memory_embedding (envWith unitEmbed) (some okHandle) "m1" "u1" "tea" "active").2).head?
      = some (.upsertCall [(memory_vid "m1", [1], memory_meta "u1" "m1" "active" "tea")]
          (some ("user:" ++ "u1"))) :=
  ⟨(memory_delete_skips_namespace (envWith unitEmbed) (some okHandle) okHandle
      "u1" "m1" "tea" "active").2.1 (by simp [okHandle]),
   (memory_delete_skips_namespace (envWith unitEmbed) (some okHandle) okHandle
      "u1" "m1" "tea" "active").2.2 [1] (by decide) rfl⟩

/-- C9: `query_relevant_summary` returns the `"summary"` metadata field of the
first (best) match exactly when that match's `(score or 0)` is strictly greater
than `0.75` and its metadata is truthy; with no matches, a best score at or
below the threshold, or missing/empty metadata it returns `none`, regardless of
`top_k` and of any lower-ranked matches. -/
theorem summary_threshold :
    (∀ (ms : List MatchRec) (s : String),
      summary_from_matches ms = some s ↔
        ∃ best rest, ms = best :: rest ∧ best.score.getD 0 > 3 / 4 ∧
          truthyMeta best.metadata = true ∧
          mget (best.metadata.getD []) "summary" = some s) ∧
    (∀ (ms : List MatchRec) (text : String) (k : Nat),
      (query_relevant_summary (envWith unitEmbed) (some (handleMatches ms)) text k).1
        = .ok (summary_from_matches ms)) := by
  constructor
  · intro ms s
    cases ms with
    | nil => simp [summary_from_matches]
    | cons best rest =>
      simp only [summary_from_matches]
      by_cases hcond : best.score.getD 0 > 3 / 4 ∧ truthyMeta best.metadata = true
      · rw [if_pos hcond]
        constructor
        · intro hs
          exact ⟨best, rest, rfl, hcond.1, hcond.2, hs⟩
        · rintro ⟨b, r, heq, -, -, hs⟩
          injection heq with h1 h2
          subst h1
          exact hs
      · rw [if_neg hcond]
        constructor
        · intro hs; cases hs
        · rintro ⟨b, r, heq, hsc, hmd, -⟩
          injection heq with h1 h2
          subst h1
          exact absurd ⟨hsc, hmd⟩ hcond
  · intro ms text k
    rfl

/-- C10: with an empty `hint_text`, `query_user_facts` does not short-circuit:
it embeds the `user_id` string itself and proceeds with the namespaced,
`kind=user_fact`-filtered query; only a falsy embedding result then yields the
empty list. -/
theorem facts_empty_hint_embeds_user_id (env : Env) (h : IndexHandle)
    (user_id : String) (k : Nat) :
    query_user_facts env (some h) user_id "" k
        = query_user_facts env (some h) user_id user_id k ∧
    (embTruthy (env.create_embedding user_id) = none →
      query_user_facts env (some h) user_id "" k = (.ok [], [])) ∧
    (∀ v, embTruthy (env.create_embedding user_id) = some v →
      ((query_user_facts env (some h) user_id "" k).2).head?
        = some (.queryCall
            { vector := v, top_k := k, include_metadata := true,
              filter := [("user_id", user_id), ("kind", "user_fact")],
              ns := some ("user:" ++ user_id) })) := by
  refine ⟨?_, ?_, ?_⟩
  · simp [query_user_facts, ite_self]
  · intro hemb
    simp [query_user_facts, ensure_index_ready, hemb]
  · intro v hemb
    have hemb2 : embTruthy (env.create_embedding
        (if ("" : String) = "" then user_id else "")) = some v := by
      simpa using hemb
    rw [query_user_facts_ready env h user_id "" k v hemb2]
    have hhead := query_ns_fallback_head h
      { vector := v, top_k := k, include_metadata := true,
        filter := [("user_id", user_id), ("kind", "user_fact")],
        ns := some ("user:" ++ user_id) }
    rcases hq : query_ns_fallback h
        { vector := v, top_k := k, include_metadata := true,
          filter := [("user_id", user_id), ("kind", "user_fact")],
          ns := some ("user:" ++ user_id) } with ⟨o, tr⟩
    rw [hq] at hhead
    cases o <;> simpa using hhead

/-- Witness for C10 at a concrete user and both embedding outcomes. -/
theorem facts_empty_hint_embeds_user_id_witness :
    query_user_facts deadEnv (some okHandle) "u1" "" 5
        = query_user_facts deadEnv (some okHandle) "u1" "u1" 5 ∧
    query_user_facts deadEnv (some okHandle) "u1" "" 5 = (.ok [], []) ∧
    ((query_user_facts (envWith unitEmbed) (some okHandle) "u1" "" 5).2).head?
      = some (.queryCall
          { vector := [1], top_k := 5, include_metadata := true,
            filter := [("user_id", "u1"), ("kind", "user_fact")],
            ns := some ("user:" ++ "u1") }) :=
  ⟨(facts_empty_hint_embeds_user_id deadEnv okHandle "u1" 5).1,
   (facts_empty_hint_embeds_user_id deadEnv okHandle "u1" 5).2.1 rfl,
   (facts_empty_hint_embeds_user_id (envWith unitEmbed) okHandle "u1" 5).2.2 [1] rfl⟩

end Pinecone
